import Mathlib

/-
Verification of the messaging layer of the CasperLabs Signer browser
extension.

Embedded source files:
  * the content-script relay `registerContentProxy` / `receiveMessage`
    and the background wiring `setupInjectPageAPIServer`;
  * the popup-side `BackgroundManager` class (constructor, the
    `onStateUpdate` handler, and every public call-issuing method).

JavaScript values that flow through `window.postMessage` and
`browser.runtime.sendMessage` are modelled by the inductive `JSValue`
below.  Property reads and writes follow JavaScript semantics: `typeof`
reports the string `object` for both real objects and `null`, reading a
property of `null` or `undefined` raises a TypeError, and reading an
absent property of an object yields `undefined`.
-/

mutual
inductive JSValue where
  | vNull
  | vUndefined
  | vBool (b : Bool)
  | vNum (n : Int)
  | vStr (s : String)
  | vObj (fields : JSFields)
deriving DecidableEq, Repr

inductive JSFields where
  | fnil
  | fcons (key : String) (val : JSValue) (rest : JSFields)
deriving DecidableEq, Repr
end

/-- Property lookup in an object field list (first binding of the key wins,
matching a JavaScript object, whose keys are unique). -/
def JSFields.lookup : JSFields → String → Option JSValue
  | .fnil, _ => none
  | .fcons k v rest, key => if k = key then some v else JSFields.lookup rest key

/-- Property assignment on an object field list: an existing key keeps its
position and gets the new value, a fresh key is appended, as in JavaScript. -/
def JSFields.set : JSFields → String → JSValue → JSFields
  | .fnil, key, val => .fcons key val .fnil
  | .fcons k v rest, key, val =>
      if k = key then .fcons key val rest else .fcons k v (JSFields.set rest key val)

/-- Exceptions our embedded JavaScript fragments can raise. -/
inductive JSError where
  | typeError
deriving DecidableEq, Repr

/-- The test `typeof v === 'object'` from JavaScript.  Note that
`typeof null` is the string `object`, so `vNull` passes this test. -/
def typeofIsObject : JSValue → Bool
  | .vNull => true
  | .vObj _ => true
  | _ => false

/-- Total property read, used once the receiver is known to be a real
object (absent keys give `undefined`, primitives have none of the keys this
development reads). -/
def getFieldD : JSValue → String → JSValue
  | .vObj fields, key => (fields.lookup key).getD .vUndefined
  | _, _ => .vUndefined

/-- Property read with JavaScript error semantics: reading a property of
`null` or `undefined` raises a TypeError, every other receiver yields the
value of `getFieldD`. -/
def getField : JSValue → String → Except JSError JSValue
  | .vNull, _ => .error .typeError
  | .vUndefined, _ => .error .typeError
  | v, key => .ok (getFieldD v key)

/-- Property assignment: on an object the field list is updated, on any
other receiver the program state is unchanged (the relay only assigns to
values already known to be objects). -/
def setField : JSValue → String → JSValue → JSValue
  | .vObj fields, key, val => .vObj (fields.set key val)
  | v, _, _ => v

/-- Observable side effects of one invocation of the content-script relay
listener: console output, payloads passed to `browser.runtime.sendMessage`,
and messages re-posted with `window.postMessage`. -/
structure RelayEffects where
  consoleLogs : List JSValue
  runtimeSends : List JSValue
  windowPosts : List JSValue
deriving DecidableEq, Repr

/-- The listener `receiveMessage` installed by `registerContentProxy`
(content script side).  Transcribed from the source:

  const msg = event.data;
  if (logMessages) console.log(...);
  if (typeof msg !== 'object') return;
  if (msg.type !== 'request') return;
  msg.value = await browser.runtime.sendMessage(msg.payload);
  msg.type = 'reply';
  window.postMessage(msg, '*');

`send` models the value resolved by `browser.runtime.sendMessage`.  The
second component records whether the listener body raised (a raised
TypeError rejects the async listener promise). -/
def receiveMessage (send : JSValue → JSValue) (logMessages : Bool)
    (eventData : JSValue) : RelayEffects × Except JSError Unit :=
  let logs : List JSValue := if logMessages then [eventData] else []
  if typeofIsObject eventData = false then
    (⟨logs, [], []⟩, .ok ())
  else
    match getField eventData "type" with
    | .error e => (⟨logs, [], []⟩, .error e)
    | .ok t =>
      if t = JSValue.vStr "request" then
        let payload := getFieldD eventData "payload"
        let reply := send payload
        let posted := setField (setField eventData "value" reply) "type" (.vStr "reply")
        (⟨logs, [payload], [posted]⟩, .ok ())
      else
        (⟨logs, [], []⟩, .ok ())

/-
Trace model of the Rpc endpoint wiring.  The Rpc class itself lives in a
file outside this extract; the wiring code only constructs an endpoint,
registers named handlers on it, and issues calls, so those three effects
are recorded as an event trace.  Handlers are identified by the
collaborator object and bound method they come from.
-/

/-- Identity of a handler function bound into an Rpc registry, given by
its owning collaborator and method. -/
inductive HandlerId where
  | signMessageManager_addUnsignedMessageBase16Async
  | signMessageManager_getSelectedPublicKeyBase64
  | connectionManager_isConnected
  | connectionManager_requestConnection
  | connectionManager_connectToSite
  | authController_createNewVault
  | connectionManager_hasCreatedVault
  | popup_onStateUpdate
deriving DecidableEq, Repr

/-- One observable effect performed against the Rpc layer: constructing an
endpoint (with its source, destination and log flag), registering a named
handler, or issuing a call (with its arguments and the handler, if any,
that consumes the resolved value). -/
inductive RpcEvent where
  | construct (source : String) (destination : String) (logMessages : Bool)
  | register (method : String) (handler : HandlerId)
  | callThen (method : String) (args : List JSValue) (cont : Option HandlerId)
deriving DecidableEq, Repr

/-- Endpoint constructions appearing in a trace, as (source, destination,
logMessages) triples. -/
def constructsOf : List RpcEvent → List (String × String × Bool)
  | [] => []
  | .construct s d b :: rest => (s, d, b) :: constructsOf rest
  | .register _ _ :: rest => constructsOf rest
  | .callThen _ _ _ :: rest => constructsOf rest

/-- Handler registrations appearing in a trace, in order. -/
def registrationsOf : List RpcEvent → List (String × HandlerId)
  | [] => []
  | .register m h :: rest => (m, h) :: registrationsOf rest
  | .construct _ _ _ :: rest => registrationsOf rest
  | .callThen _ _ _ :: rest => registrationsOf rest

/-- Calls appearing in a trace, in order. -/
def callsOf : List RpcEvent → List (String × List JSValue × Option HandlerId)
  | [] => []
  | .callThen m a c :: rest => (m, a, c) :: callsOf rest
  | .construct _ _ _ :: rest => callsOf rest
  | .register _ _ :: rest => callsOf rest

/-- The wiring function `setupInjectPageAPIServer` (background side),
transcribed statement by statement: one `new Rpc` with
`destination: 'page'`, `source: 'background'`, then seven `rpc.register`
calls binding collaborator methods. -/
def setupInjectPageAPIServer (logMessages : Bool) : List RpcEvent :=
  [ .construct "background" "page" logMessages,
    .register "sign" .signMessageManager_addUnsignedMessageBase16Async,
    .register "getSelectedPublicKeyBase64" .signMessageManager_getSelectedPublicKeyBase64,
    .register "isConnected" .connectionManager_isConnected,
    .register "requestConnection" .connectionManager_requestConnection,
    .register "connectToSite" .connectionManager_connectToSite,
    .register "createNewVault" .authController_createNewVault,
    .register "hasCreatedVault" .connectionManager_hasCreatedVault ]

/-
Popup-side BackgroundManager.  The shared AppState is modelled as a record
of the twelve fields the popup tracks; field types are opaque JSValues
except the two mobx observable arrays, whose `replace` method swaps the
whole contents.
-/

/-- The popup-local application state mirrored from the background. -/
structure AppState where
  isIntegratedSite : JSValue
  isUnlocked : JSValue
  unlockAttempts : JSValue
  lockoutTimerStarted : JSValue
  remainingMins : JSValue
  currentTab : JSValue
  connectionRequested : JSValue
  connectedSites : JSValue
  hasCreatedVault : JSValue
  selectedUserAccount : JSValue
  userAccounts : List JSValue
  unsignedDeploys : List JSValue
deriving DecidableEq, Repr

/-- The private handler `BackgroundManager.onStateUpdate`, registered under
`popup.updateState`: starting from the current local state `this`, every
tracked field is overwritten with the corresponding field of the received
snapshot (`userAccounts.replace` and `unsignedDeploys.replace` swap the
array contents wholesale). -/
def onStateUpdate (this appState : AppState) : AppState :=
  { this with
    isIntegratedSite := appState.isIntegratedSite,
    isUnlocked := appState.isUnlocked,
    unlockAttempts := appState.unlockAttempts,
    lockoutTimerStarted := appState.lockoutTimerStarted,
    remainingMins := appState.remainingMins,
    currentTab := appState.currentTab,
    connectionRequested := appState.connectionRequested,
    connectedSites := appState.connectedSites,
    hasCreatedVault := appState.hasCreatedVault,
    selectedUserAccount := appState.selectedUserAccount,
    userAccounts := appState.userAccounts,
    unsignedDeploys := appState.unsignedDeploys }

/-- The `BackgroundManager` constructor as an Rpc event trace: one
`new Rpc` with `source: 'popup'`, `destination: 'background'`,
`logMessages: false`; one registration of `popup.updateState` bound to
`onStateUpdate`; one `call('background.getState')` whose `.then` pipes the
resolved snapshot into `onStateUpdate`. -/
def BackgroundManager.constructorEvents : List RpcEvent :=
  [ .construct "popup" "background" false,
    .register "popup.updateState" .popup_onStateUpdate,
    .callThen "background.getState" [] (some .popup_onStateUpdate) ]

/-- A single `this.rpc.call(method, ...args)` as issued by a
BackgroundManager method. -/
structure RpcCall where
  method : String
  args : List JSValue
deriving DecidableEq, Repr

/-- Effect of one public BackgroundManager method: the rpc calls its body
issues, and whether the resulting promise is wrapped in
`errors.withCapture`. -/
structure MethodEffect where
  calls : List RpcCall
  captured : Bool
deriving DecidableEq, Repr

/-- Encoding of an optional string argument: `undefined` when absent. -/
def optStr : Option String → JSValue
  | none => .vUndefined
  | some s => .vStr s

namespace BackgroundManager

def unlock (password : String) : MethodEffect :=
  { calls := [{ method := "account.unlock", args := [.vStr password] }], captured := true }

def createNewVault (password : String) : MethodEffect :=
  { calls := [{ method := "account.createNewVault", args := [.vStr password] }], captured := false }

def lock : MethodEffect :=
  { calls := [{ method := "account.lock", args := [] }], captured := false }

def importUserAccount (name secretKeyBase64 algorithm : String) : MethodEffect :=
  { calls := [{ method := "account.importUserAccount",
                args := [.vStr name, .vStr secretKeyBase64, .vStr algorithm] }],
    captured := true }

def reorderAccount (index1 index2 : Int) : MethodEffect :=
  { calls := [{ method := "account.reorderAccount", args := [.vNum index1, .vNum index2] }],
    captured := true }

def removeUserAccount (name : String) : MethodEffect :=
  { calls := [{ method := "account.removeUserAccount", args := [.vStr name] }], captured := true }

def signDeploy (deployId : Int) : MethodEffect :=
  { calls := [{ method := "sign.signDeploy", args := [.vNum deployId] }], captured := true }

def rejectSignDeploy (deployId : Int) : MethodEffect :=
  { calls := [{ method := "sign.rejectSignDeploy", args := [.vNum deployId] }], captured := true }

def parseDeployData (deployId : Int) : MethodEffect :=
  { calls := [{ method := "sign.parseDeployData", args := [.vNum deployId] }], captured := true }

def switchToAccount (accountName : String) : MethodEffect :=
  { calls := [{ method := "account.switchToAccount", args := [.vStr accountName] }],
    captured := true }

def getSelectUserAccount : MethodEffect :=
  { calls := [{ method := "account.getSelectUserAccount", args := [] }], captured := true }

def getActivePublicKeyHex : MethodEffect :=
  { calls := [{ method := "account.getActivePublicKeyHex", args := [] }], captured := true }

def getActiveAccountHash : MethodEffect :=
  { calls := [{ method := "account.getActiveAccountHash", args := [] }], captured := true }

def resetVault : MethodEffect :=
  { calls := [{ method := "account.resetVault", args := [] }], captured := true }

def resetLockout : MethodEffect :=
  { calls := [{ method := "account.resetLockout", args := [] }], captured := true }

def startLockoutTimer (timeInMinutes : Int) : MethodEffect :=
  { calls := [{ method := "account.startLockoutTimer", args := [.vNum timeInMinutes] }],
    captured := true }

def resetLockoutTimer : MethodEffect :=
  { calls := [{ method := "account.resetLockoutTimer", args := [] }], captured := true }

def renameUserAccount (oldName newName : String) : MethodEffect :=
  { calls := [{ method := "account.renameUserAccount", args := [.vStr oldName, .vStr newName] }],
    captured := true }

def downloadAccountKeys (accountAlias : String) : MethodEffect :=
  { calls := [{ method := "account.downloadAccountKeys", args := [.vStr accountAlias] }],
    captured := true }

def connectToSite (url : Option String) : MethodEffect :=
  { calls := [{ method := "connection.connectToSite", args := [optStr url] }], captured := true }

def disconnectFromSite (site : Option String) : MethodEffect :=
  { calls := [{ method := "connection.disconnectFromSite", args := [optStr site] }],
    captured := true }

def removeSite (url : String) : MethodEffect :=
  { calls := [{ method := "connection.removeSite", args := [.vStr url] }], captured := true }

def resetConnectionRequest : MethodEffect :=
  { calls := [{ method := "connection.resetConnectionRequest", args := [] }], captured := true }

def confirmPassword (password : String) : MethodEffect :=
  { calls := [{ method := "account.confirmPassword", args := [.vStr password] }],
    captured := true }

def isIntegratedSite (hostname : String) : MethodEffect :=
  { calls := [{ method := "connection.isIntegratedSite", args := [.vStr hostname] }],
    captured := true }

end BackgroundManager

/-- Concrete request envelope used by the concrete instantiations below. -/
def sampleRequestFields : JSFields :=
  .fcons "type" (.vStr "request")
    (.fcons "id" (.vNum 7) (.fcons "payload" (.vStr "ping") .fnil))

/-- Concrete background responder used by the concrete instantiations
below: it resolves every forwarded payload with the string pong. -/
def pongSend : JSValue → JSValue := fun _ => .vStr "pong"

theorem JSFields.lookup_set_same :
    ∀ (fields : JSFields) (k : String) (v : JSValue),
      (fields.set k v).lookup k = some v
  | .fnil, k, v => by simp [JSFields.set, JSFields.lookup]
  | .fcons k0 v0 rest, k, v => by
      by_cases h : k0 = k
      · simp [JSFields.set, JSFields.lookup, h]
      · simp [JSFields.set, JSFields.lookup, h, JSFields.lookup_set_same rest k v]

theorem JSFields.lookup_set_ne :
    ∀ (fields : JSFields) (k k2 : String) (v : JSValue), k2 ≠ k →
      (fields.set k v).lookup k2 = fields.lookup k2
  | .fnil, k, k2, v, h => by
      simp [JSFields.set, JSFields.lookup, Ne.symm h]
  | .fcons k0 v0 rest, k, k2, v, h => by
      by_cases h0 : k0 = k
      · subst h0
        simp [JSFields.set, JSFields.lookup, Ne.symm h]
      · simp [JSFields.set, JSFields.lookup, h0,
          JSFields.lookup_set_ne rest k k2 v h]

theorem getFieldD_setField_same (fields : JSFields) (k : String) (v : JSValue) :
    getFieldD (setField (.vObj fields) k v) k = v := by
  simp [setField, getFieldD, JSFields.lookup_set_same]

theorem getFieldD_setField_ne (fields : JSFields) (k k2 : String) (v : JSValue)
    (h : k2 ≠ k) :
    getFieldD (setField (.vObj fields) k v) k2 = getFieldD (.vObj fields) k2 := by
  simp [setField, getFieldD, JSFields.lookup_set_ne fields k k2 v h]

/-- Evaluation of the relay listener on a well-formed request envelope. -/
theorem receiveMessage_request_eval (send : JSValue → JSValue) (b : Bool)
    (fields : JSFields)
    (h : fields.lookup "type" = some (JSValue.vStr "request")) :
    receiveMessage send b (.vObj fields) =
      (⟨if b then [.vObj fields] else [],
        [getFieldD (.vObj fields) "payload"],
        [setField (setField (.vObj fields) "value"
            (send (getFieldD (.vObj fields) "payload"))) "type" (.vStr "reply")]⟩,
       .ok ()) := by
  have hget : getField (JSValue.vObj fields) "type"
      = Except.ok (JSValue.vStr "request") := by
    simp [getField, getFieldD, h]
  unfold receiveMessage
  rw [hget]
  simp [typeofIsObject]

/-- C3: the claim says every malformed input (non-object, or object whose
type is not request) is ignored without a throw.  The code is wrong on the
input null: since typeof null is the string object, null passes the guard
and the read null.type raises a TypeError inside the listener, rejecting
its promise.  Nothing is sent or posted, but the body does raise. -/
theorem C3_relay_null_input_raises :
    receiveMessage (fun v => v) false JSValue.vNull
      = ({ consoleLogs := [], runtimeSends := [], windowPosts := [] },
         Except.error JSError.typeError) := rfl

/-- C4: setupInjectPageAPIServer constructs exactly one Rpc endpoint with
source background and destination page, registers exactly the seven
page-facing method names bound to the corresponding collaborator handlers,
and performs no other registrations, calls, or effects. -/
theorem C4_inject_page_server_wiring (b : Bool) :
    constructsOf (setupInjectPageAPIServer b) = [("background", "page", b)] ∧
    registrationsOf (setupInjectPageAPIServer b) =
      [("sign", HandlerId.signMessageManager_addUnsignedMessageBase16Async),
       ("getSelectedPublicKeyBase64",
          HandlerId.signMessageManager_getSelectedPublicKeyBase64),
       ("isConnected", HandlerId.connectionManager_isConnected),
       ("requestConnection", HandlerId.connectionManager_requestConnection),
       ("connectToSite", HandlerId.connectionManager_connectToSite),
       ("createNewVault", HandlerId.authController_createNewVault),
       ("hasCreatedVault", HandlerId.connectionManager_hasCreatedVault)] ∧
    callsOf (setupInjectPageAPIServer b) = [] ∧
    (setupInjectPageAPIServer b).length = 8 :=
  ⟨rfl, rfl, rfl, rfl⟩

/-- C5: the BackgroundManager constructor builds exactly one Rpc endpoint
with source popup and destination background, registers popup.updateState
bound to onStateUpdate, and issues exactly one call of background.getState
whose resolved snapshot is piped into that same handler. -/
theorem C5_background_manager_ctor_wiring :
    constructsOf BackgroundManager.constructorEvents
      = [("popup", "background", false)] ∧
    registrationsOf BackgroundManager.constructorEvents
      = [("popup.updateState", HandlerId.popup_onStateUpdate)] ∧
    callsOf BackgroundManager.constructorEvents
      = [("background.getState", [], some HandlerId.popup_onStateUpdate)] ∧
    BackgroundManager.constructorEvents.length = 3 :=
  ⟨rfl, rfl, rfl, rfl⟩

/-- C6: every public call-issuing method of BackgroundManager issues
exactly one rpc call whose method name is the corresponding name of the
account, sign or connection surface and whose arguments are the method
arguments in order. -/
theorem C6_call_surface :
    (∀ p, (BackgroundManager.unlock p).calls
      = [{ method := "account.unlock", args := [JSValue.vStr p] }]) ∧
    (∀ p, (BackgroundManager.createNewVault p).calls
      = [{ method := "account.createNewVault", args := [JSValue.vStr p] }]) ∧
    BackgroundManager.lock.calls
      = [{ method := "account.lock", args := [] }] ∧
    (∀ n s a, (BackgroundManager.importUserAccount n s a).calls
      = [{ method := "account.importUserAccount",
           args := [JSValue.vStr n, JSValue.vStr s, JSValue.vStr a] }]) ∧
    (∀ i j, (BackgroundManager.reorderAccount i j).calls
      = [{ method := "account.reorderAccount",
           args := [JSValue.vNum i, JSValue.vNum j] }]) ∧
    (∀ n, (BackgroundManager.removeUserAccount n).calls
      = [{ method := "account.removeUserAccount", args := [JSValue.vStr n] }]) ∧
    (∀ d, (BackgroundManager.signDeploy d).calls
      = [{ method := "sign.signDeploy", args := [JSValue.vNum d] }]) ∧
    (∀ d, (BackgroundManager.rejectSignDeploy d).calls
      = [{ method := "sign.rejectSignDeploy", args := [JSValue.vNum d] }]) ∧
    (∀ d, (BackgroundManager.parseDeployData d).calls
      = [{ method := "sign.parseDeployData", args := [JSValue.vNum d] }]) ∧
    (∀ n, (BackgroundManager.switchToAccount n).calls
      = [{ method := "account.switchToAccount", args := [JSValue.vStr n] }]) ∧
    BackgroundManager.getSelectUserAccount.calls
      = [{ method := "account.getSelectUserAccount", args := [] }] ∧
    BackgroundManager.getActivePublicKeyHex.calls
      = [{ method := "account.getActivePublicKeyHex", args := [] }] ∧
    BackgroundManager.getActiveAccountHash.calls
      = [{ method := "account.getActiveAccountHash", args := [] }] ∧
    BackgroundManager.resetVault.calls
      = [{ method := "account.resetVault", args := [] }] ∧
    BackgroundManager.resetLockout.calls
      = [{ method := "account.resetLockout", args := [] }] ∧
    (∀ t, (BackgroundManager.startLockoutTimer t).calls
      = [{ method := "account.startLockoutTimer", args := [JSValue.vNum t] }]) ∧
    BackgroundManager.resetLockoutTimer.calls
      = [{ method := "account.resetLockoutTimer", args := [] }] ∧
    (∀ o n, (BackgroundManager.renameUserAccount o n).calls
      = [{ method := "account.renameUserAccount",
           args := [JSValue.vStr o, JSValue.vStr n] }]) ∧
    (∀ a, (BackgroundManager.downloadAccountKeys a).calls
      = [{ method := "account.downloadAccountKeys", args := [JSValue.vStr a] }]) ∧
    (∀ p, (BackgroundManager.confirmPassword p).calls
      = [{ method := "account.confirmPassword", args := [JSValue.vStr p] }]) ∧
    (∀ u, (BackgroundManager.connectToSite u).calls
      = [{ method := "connection.connectToSite", args := [optStr u] }]) ∧
    (∀ s, (BackgroundManager.disconnectFromSite s).calls
      = [{ method := "connection.disconnectFromSite", args := [optStr s] }]) ∧
    (∀ u, (BackgroundManager.removeSite u).calls
      = [{ method := "connection.removeSite", args := [JSValue.vStr u] }]) ∧
    BackgroundManager.resetConnectionRequest.calls
      = [{ method := "connection.resetConnectionRequest", args := [] }] ∧
    (∀ h, (BackgroundManager.isIntegratedSite h).calls
      = [{ method := "connection.isIntegratedSite", args := [JSValue.vStr h] }]) := by
  and_intros <;> intros <;> rfl

/-- C7: whenever onStateUpdate runs with snapshot s, every tracked field of
the local AppState equals the corresponding field of s afterwards: the
handler applies the complete snapshot, not a diff, so the resulting state
is s itself. -/
theorem C7_update_applies_complete_snapshot (st s : AppState) :
    (onStateUpdate st s).isIntegratedSite = s.isIntegratedSite ∧
    (onStateUpdate st s).isUnlocked = s.isUnlocked ∧
    (onStateUpdate st s).unlockAttempts = s.unlockAttempts ∧
    (onStateUpdate st s).lockoutTimerStarted = s.lockoutTimerStarted ∧
    (onStateUpdate st s).remainingMins = s.remainingMins ∧
    (onStateUpdate st s).currentTab = s.currentTab ∧
    (onStateUpdate st s).connectionRequested = s.connectionRequested ∧
    (onStateUpdate st s).connectedSites = s.connectedSites ∧
    (onStateUpdate st s).hasCreatedVault = s.hasCreatedVault ∧
    (onStateUpdate st s).selectedUserAccount = s.selectedUserAccount ∧
    (onStateUpdate st s).userAccounts = s.userAccounts ∧
    (onStateUpdate st s).unsignedDeploys = s.unsignedDeploys ∧
    onStateUpdate st s = s := by
  and_intros <;> rfl

/-- C10 counterexample: the claim picks createNewVault as the only method
returning an uncaptured rpc call, but lock also returns its rpc call with
no errors.withCapture wrapper. -/
theorem C10_counterexample_lock_uncaptured :
    ¬ BackgroundManager.lock.captured = true := by decide

/-- C10 (amended): every public call-issuing method of BackgroundManager
except createNewVault and lock wraps its rpc call in errors.withCapture;
createNewVault and lock return the raw call promise uncaptured. -/
theorem C10_capture_surface :
    (∀ p, (BackgroundManager.unlock p).captured = true) ∧
    (∀ p, (BackgroundManager.createNewVault p).captured = false) ∧
    BackgroundManager.lock.captured = false ∧
    (∀ n s a, (BackgroundManager.importUserAccount n s a).captured = true) ∧
    (∀ i j, (BackgroundManager.reorderAccount i j).captured = true) ∧
    (∀ n, (BackgroundManager.removeUserAccount n).captured = true) ∧
    (∀ d, (BackgroundManager.signDeploy d).captured = true) ∧
    (∀ d, (BackgroundManager.rejectSignDeploy d).captured = true) ∧
    (∀ d, (BackgroundManager.parseDeployData d).captured = true) ∧
    (∀ n, (BackgroundManager.switchToAccount n).captured = true) ∧
    BackgroundManager.getSelectUserAccount.captured = true ∧
    BackgroundManager.getActivePublicKeyHex.captured = true ∧
    BackgroundManager.getActiveAccountHash.captured = true ∧
    BackgroundManager.resetVault.captured = true ∧
    BackgroundManager.resetLockout.captured = true ∧
    (∀ t, (BackgroundManager.startLockoutTimer t).captured = true) ∧
    BackgroundManager.resetLockoutTimer.captured = true ∧
    (∀ o n, (BackgroundManager.renameUserAccount o n).captured = true) ∧
    (∀ a, (BackgroundManager.downloadAccountKeys a).captured = true) ∧
    (∀ p, (BackgroundManager.confirmPassword p).captured = true) ∧
    (∀ u, (BackgroundManager.connectToSite u).captured = true) ∧
    (∀ s, (BackgroundManager.disconnectFromSite s).captured = true) ∧
    (∀ u, (BackgroundManager.removeSite u).captured = true) ∧
    BackgroundManager.resetConnectionRequest.captured = true ∧
    (∀ h, (BackgroundManager.isIntegratedSite h).captured = true) := by
  and_intros <;> intros <;> rfl

/-- C1: on a request envelope the relay sends exactly one runtime message,
assigns the resolved value into the value field of the original message,
flips type to reply, and re-posts that message locally with its id field
(and every other field except value and type) unchanged. -/
theorem C1_relay_request_reply_roundtrip (send : JSValue → JSValue) (b : Bool)
    (fields : JSFields)
    (h : fields.lookup "type" = some (JSValue.vStr "request")) :
    (receiveMessage send b (.vObj fields)).2 = Except.ok () ∧
    (receiveMessage send b (.vObj fields)).1.runtimeSends
      = [getFieldD (.vObj fields) "payload"] ∧
    (receiveMessage send b (.vObj fields)).1.windowPosts
      = [setField (setField (.vObj fields) "value"
          (send (getFieldD (.vObj fields) "payload"))) "type" (.vStr "reply")] ∧
    getFieldD (setField (setField (.vObj fields) "value"
        (send (getFieldD (.vObj fields) "payload"))) "type" (.vStr "reply")) "id"
      = getFieldD (.vObj fields) "id" ∧
    getFieldD (setField (setField (.vObj fields) "value"
        (send (getFieldD (.vObj fields) "payload"))) "type" (.vStr "reply")) "type"
      = JSValue.vStr "reply" ∧
    getFieldD (setField (setField (.vObj fields) "value"
        (send (getFieldD (.vObj fields) "payload"))) "type" (.vStr "reply")) "value"
      = send (getFieldD (.vObj fields) "payload") := by
  have he := receiveMessage_request_eval send b fields h
  refine ⟨?_, ?_, ?_, ?_, ?_, ?_⟩
  · rw [he]
  · rw [he]
  · rw [he]
  · simp only [setField, getFieldD]
    rw [JSFields.lookup_set_ne _ "type" "id" _ (by decide),
      JSFields.lookup_set_ne _ "value" "id" _ (by decide)]
  · simp only [setField, getFieldD]
    rw [JSFields.lookup_set_same]
    rfl
  · simp only [setField, getFieldD]
    rw [JSFields.lookup_set_ne _ "type" "value" _ (by decide),
      JSFields.lookup_set_same]
    rfl

/-- C1 witness: the round-trip property evaluated on a concrete request
envelope with id 7 and payload ping, against a responder resolving pong. -/
theorem C1_witness :
    sampleRequestFields.lookup "type" = some (JSValue.vStr "request") ∧
    ((receiveMessage pongSend false (.vObj sampleRequestFields)).2 = Except.ok () ∧
     (receiveMessage pongSend false (.vObj sampleRequestFields)).1.runtimeSends
       = [getFieldD (.vObj sampleRequestFields) "payload"] ∧
     (receiveMessage pongSend false (.vObj sampleRequestFields)).1.windowPosts
       = [setField (setField (.vObj sampleRequestFields) "value"
           (pongSend (getFieldD (.vObj sampleRequestFields) "payload"))) "type"
           (.vStr "reply")] ∧
     getFieldD (setField (setField (.vObj sampleRequestFields) "value"
         (pongSend (getFieldD (.vObj sampleRequestFields) "payload"))) "type"
         (.vStr "reply")) "id"
       = getFieldD (.vObj sampleRequestFields) "id" ∧
     getFieldD (setField (setField (.vObj sampleRequestFields) "value"
         (pongSend (getFieldD (.vObj sampleRequestFields) "payload"))) "type"
         (.vStr "reply")) "type"
       = JSValue.vStr "reply" ∧
     getFieldD (setField (setField (.vObj sampleRequestFields) "value"
         (pongSend (getFieldD (.vObj sampleRequestFields) "payload"))) "type"
         (.vStr "reply")) "value"
       = pongSend (getFieldD (.vObj sampleRequestFields) "payload")) :=
  ⟨rfl, C1_relay_request_reply_roundtrip pongSend false sampleRequestFields rfl⟩

/-- C2 counterexample: the claim says the relay emits the observed message
itself on the runtime channel, but on a concrete request envelope the
relay emits the payload field, which differs from the envelope. -/
theorem C2_counterexample_payload_not_envelope :
    (receiveMessage (fun v => v) false
        (JSValue.vObj (.fcons "type" (.vStr "request")
          (.fcons "payload" (.vStr "inner") .fnil)))).1.runtimeSends
      ≠ [JSValue.vObj (.fcons "type" (.vStr "request")
          (.fcons "payload" (.vStr "inner") .fnil))] := by decide

/-- C2 (amended): for every well-formed request envelope, the object the
relay emits on the runtime-wide channel is the payload field of the
observed message, unmodified. -/
theorem C2_relay_forwards_payload (send : JSValue → JSValue) (b : Bool)
    (fields : JSFields)
    (h : fields.lookup "type" = some (JSValue.vStr "request")) :
    (receiveMessage send b (.vObj fields)).1.runtimeSends
      = [getFieldD (.vObj fields) "payload"] := by
  rw [receiveMessage_request_eval send b fields h]

/-- C2 witness: the amended forwarding property on the concrete request
envelope. -/
theorem C2_witness :
    sampleRequestFields.lookup "type" = some (JSValue.vStr "request") ∧
    (receiveMessage pongSend false (.vObj sampleRequestFields)).1.runtimeSends
      = [getFieldD (.vObj sampleRequestFields) "payload"] :=
  ⟨rfl, C2_relay_forwards_payload pongSend false sampleRequestFields rfl⟩

/-- C8: the messages emitted by the relay, and whether its body raises,
are identical whether logMessages is true or false; the flag only changes
the console output. -/
theorem C8_log_flag_is_diagnostic_only (send : JSValue → JSValue) (msg : JSValue) :
    (receiveMessage send true msg).1.runtimeSends
      = (receiveMessage send false msg).1.runtimeSends ∧
    (receiveMessage send true msg).1.windowPosts
      = (receiveMessage send false msg).1.windowPosts ∧
    (receiveMessage send true msg).2 = (receiveMessage send false msg).2 := by
  refine ⟨?_, ?_, ?_⟩ <;>
  · unfold receiveMessage
    by_cases h1 : typeofIsObject msg = false
    · simp [h1]
    · rcases hg : getField msg "type" with e | t
      · simp [h1, hg]
      · by_cases h2 : t = JSValue.vStr "request" <;> simp [h1, hg, h2]

/-- C9: one invocation of the relay listener sends at most one runtime
message and posts at most one local message, and an input whose type field
is reply (in particular a reply the relay itself re-posted) causes no
runtime send and no further local post. -/
theorem C9_reply_never_reforwarded (send : JSValue → JSValue) (b : Bool)
    (msg : JSValue) :
    (receiveMessage send b msg).1.runtimeSends.length ≤ 1 ∧
    (receiveMessage send b msg).1.windowPosts.length ≤ 1 ∧
    (getField msg "type" = Except.ok (JSValue.vStr "reply") →
      (receiveMessage send b msg).1.runtimeSends = [] ∧
      (receiveMessage send b msg).1.windowPosts = []) := by
  have hne : ¬ (JSValue.vStr "reply" = JSValue.vStr "request") := by decide
  refine ⟨?_, ?_, ?_⟩
  · unfold receiveMessage
    by_cases h1 : typeofIsObject msg = false
    · simp [h1]
    · rcases hg : getField msg "type" with e | t
      · simp [h1, hg]
      · by_cases h2 : t = JSValue.vStr "request" <;> simp [h1, hg, h2]
  · unfold receiveMessage
    by_cases h1 : typeofIsObject msg = false
    · simp [h1]
    · rcases hg : getField msg "type" with e | t
      · simp [h1, hg]
      · by_cases h2 : t = JSValue.vStr "request" <;> simp [h1, hg, h2]
  · intro hr
    unfold receiveMessage
    by_cases h1 : typeofIsObject msg = false
    · simp [h1]
    · simp [h1, hr, hne]

/-- C9 witness: a reply envelope is ignored by the relay. -/
theorem C9_witness :
    (receiveMessage pongSend false
        (JSValue.vObj (.fcons "type" (.vStr "reply") .fnil))).1.runtimeSends = [] ∧
    (receiveMessage pongSend false
        (JSValue.vObj (.fcons "type" (.vStr "reply") .fnil))).1.windowPosts = [] :=
  (C9_reply_never_reforwarded pongSend false
    (JSValue.vObj (.fcons "type" (.vStr "reply") .fnil))).2.2 rfl
